import Mathlib

/-!
Verification of `plot4paper.py` (repository `plotting4papers`): a shallow
embedding of the `qualfig` class, which resolves publication figure geometry
from journal layout presets, mutates the global matplotlib `rcParams` style
state, and drives a crop/convert save pipeline.

Modelling notes:
* Python floats are modelled as real numbers (`ℝ`).
* The process-global `rcParams` dictionary is modelled as an explicit record
  of exactly the entries the source writes, threaded through the operations.
* Python exceptions are modelled by an `Except` result carrying a `PyError`
  value that records the exception class and its distinguishing payload.
* `configparser` data from the external `config.ini` (sections keyed by the
  uppercase template name, fields `savesuf`, `texcolumnwidth`,
  `texlinewidth`, `texheight`) is modelled as an abstract `Config` map.
* Console prints are not modelled, except for the conflicting-arguments
  warning of `set_label_spaces`, which is returned as a Boolean flag.
* The filesystem side effects of `save` are modelled as a trace of external
  operations, from which the set of surviving artifact files is computed.
-/

/-- The matplotlib global style dictionary, restricted to exactly the keys
that `plot4paper.py` writes.  Field names transcribe the rcParams keys. -/
structure RcParams where
  figure_subplot_top : ℝ
  figure_subplot_bottom : ℝ
  figure_subplot_left : ℝ
  figure_subplot_right : ℝ
  figure_figsize : ℝ × ℝ
  font_size : ℝ
  axes_labelsize : ℝ
  axes_titlesize : ℝ
  xtick_major_width : ℝ
  xtick_minor_width : ℝ
  ytick_major_width : ℝ
  ytick_minor_width : ℝ
  lines_linewidth : ℝ
  grid_linewidth : ℝ
  xtick_minor_visible : Bool
  ytick_minor_visible : Bool
  xtick_bottom : Bool
  xtick_top : Bool
  ytick_left : Bool
  ytick_right : Bool
  xtick_direction : String
  ytick_direction : String
  errorbar_capsize : ℝ
  legend_fontsize : ℝ
  legend_framealpha : ℝ
  legend_edgecolor : String
  xtick_labelsize : ℝ
  ytick_labelsize : ℝ
  font_family : String
  text_usetex : Bool
  text_latex_preamble : String
  contour_negative_linestyle : String
  axes_prop_cycle : String

/-- One section of the external `config.ini`.  Modelled from the spec: the
configuration source is an external key-value file with fields `savesuf`,
`texcolumnwidth`, `texlinewidth`, `texheight` per template section; the file
itself is not part of the source tree, so its contents stay abstract. -/
structure Preset where
  savesuf : String
  texcolumnwidth : ℝ
  texlinewidth : ℝ
  texheight : ℝ

/-- The parsed `config.ini`: a map from (uppercase) section name to its
fields, as accessed through `config.__getitem__(key.upper())`. -/
def Config : Type := String → Preset

/-- The `astronomy_journal` list from the source. -/
def astronomy_journal : List String := ["mnras", "apj", "aa", "iau"]

/-- The `university_thesis` list from the source. -/
def university_thesis : List String := ["lmu"]

/-- Source: `permitted_keys = astronomy_journal + university_thesis`. -/
def permitted_keys : List String := astronomy_journal ++ university_thesis

/-- Python exceptions raised by `qualfig.__init__`, one constructor per
`raise` site (plus the two implicit runtime errors), carrying the
distinguishing payload of the exception message. -/
inductive PyError where
  /-- The `KeyError` from line 72: the key is not in `permitted_keys`. -/
  | keyError (key : String)
  /-- An `AttributeError`: line 93 calls the nonexistent configparser method
  named by the payload (`getinfloat`), instead of `getfloat`. -/
  | attributeError (attr : String)
  /-- The `ValueError` from line 100: `ncols is None` but no `wf` given. -/
  | missingWidthFraction
  /-- The `ValueError` from line 103: `ncols` is neither 1, 2 nor `None`. -/
  | invalidNcols (n : ℤ)
  /-- The `ValueError` from line 122: figure height exceeds page height; the
  payload is the maximum permissible height fraction `max_height / width`
  reported in the message. -/
  | heightExceedsPage (maxhf : ℝ)
  /-- The `NameError` from line 83: `key is None`, so the local `plot_conf`
  was never bound, and reading `plot_conf.get("savesuf")` fails. -/
  | nameErrorPlotConf

/-- The Python exception class of each modelled error. -/
def PyError.pyclass : PyError → String
  | .keyError _ => "KeyError"
  | .attributeError _ => "AttributeError"
  | .missingWidthFraction => "ValueError"
  | .invalidNcols _ => "ValueError"
  | .heightExceedsPage _ => "ValueError"
  | .nameErrorPlotConf => "NameError"

/-- The `hf` argument of `qualfig.__init__`: `None`, the string `"gr"`
(golden ratio, the default), or a numeric height fraction. -/
inductive HF where
  | none
  | gr
  | frac (x : ℝ)

/-- Lines 70–83: bind `plot_conf` and read the save suffix.  A present key
outside `permitted_keys` raises `KeyError`; a present permitted key loads
`config[key.upper()]`; an absent key leaves `plot_conf` unbound so that the
first dereference on line 83 raises `NameError`. -/
def resolvePlotConf (config : Config) (key : Option String) :
    Except PyError Preset :=
  match key with
  | some k =>
      if k ∉ permitted_keys then .error (.keyError k)
      else .ok (config k.toUpper)
  | none => .error .nameErrorPlotConf

/-- Lines 87–103: resolve the plot width from `ncols` and `wf`.  The
`ncols == 2` branch transcribes the source's call to the nonexistent
configparser method `getinfloat`, which raises `AttributeError`. -/
def resolveWidth (plot_conf : Preset) (ncols : Option ℤ) (wf : Option ℝ) :
    Except PyError ℝ :=
  match ncols with
  | some 1 => .ok plot_conf.texcolumnwidth
  | some 2 => .error (.attributeError "getinfloat")
  | none =>
      match wf with
      | some w => .ok (plot_conf.texlinewidth * w)
      | none => .error .missingWidthFraction
  | some n => .error (.invalidNcols n)

/-- Line 114: `golden_ratio = 2.0 / (1.0 + np.sqrt(5.0))`. -/
noncomputable def golden_ratio : ℝ := 2.0 / (1.0 + Real.sqrt 5.0)

/-- Lines 107–119: resolve the plot height from `hf` and the width. -/
noncomputable def resolveHeight (hf : HF) (width max_height : ℝ) : ℝ :=
  match hf with
  | .none => 0.80 * max_height
  | .gr => width * golden_ratio
  | .frac x => width * x

/-- Line 128: `self.__inches_to_points = 72.27`. -/
def inches_to_points : ℝ := 72.27

/-- Lines 138–206: the wholesale overwrite of the global style state
performed after all validation has passed. -/
noncomputable def applyStyle (st : RcParams) (ncols : Option ℤ) (width height : ℝ) :
    RcParams :=
  let font_size : ℝ := 8
  let linewidth : ℝ := 0.5
  { st with
    figure_subplot_top := 0.95
    figure_subplot_bottom := if ncols = some 1 then 0.2
      else if ncols = some 2 then 0.1 else 0.2
    figure_subplot_left := if ncols = some 1 then 0.16
      else if ncols = some 2 then 0.08 else 0.16
    figure_subplot_right := if ncols = some 1 then 0.84
      else if ncols = some 2 then 0.92 else 0.84
    figure_figsize := (width / inches_to_points, height / inches_to_points)
    font_size := font_size
    axes_labelsize := font_size
    axes_titlesize := font_size
    xtick_major_width := linewidth - 0.1
    xtick_minor_width := linewidth - 0.1
    ytick_major_width := linewidth - 0.1
    ytick_minor_width := linewidth - 0.1
    lines_linewidth := linewidth
    grid_linewidth := linewidth
    xtick_minor_visible := true
    ytick_minor_visible := true
    xtick_bottom := true
    xtick_top := true
    ytick_left := true
    ytick_right := true
    xtick_direction := "in"
    ytick_direction := "in"
    errorbar_capsize := 4
    legend_fontsize := font_size
    legend_framealpha := 0
    legend_edgecolor := "w"
    xtick_labelsize := font_size - 1
    ytick_labelsize := font_size - 1
    font_family := "sans-serif"
    text_usetex := true
    text_latex_preamble := "\\usepackage{underscore}"
    contour_negative_linestyle := "solid"
    axes_prop_cycle := "brckmgy" }

/-- The per-instance state of a constructed `qualfig` object. -/
structure Qualfig where
  width : ℝ
  height : ℝ
  save_suffix : String
  dpi : ℕ

namespace Qualfig

/-- Source: `qualfig.__init__(ncols, hf, wf, key)` acting on the global style state
`st`.  Returns the final global state together with either the constructed
object or the raised exception; the state is returned unchanged on every
error path, mirroring that all `rcParams` writes occur on lines 138–206,
after the last `raise`. -/
noncomputable def init (config : Config) (st : RcParams) (ncols : Option ℤ)
    (hf : HF) (wf : Option ℝ) (key : Option String) :
    RcParams × Except PyError Qualfig :=
  match resolvePlotConf config key with
  | .error e => (st, .error e)
  | .ok plot_conf =>
    let save_suffix := plot_conf.savesuf ++ ".pdf"
    match resolveWidth plot_conf ncols wf with
    | .error e => (st, .error e)
    | .ok width =>
      let max_height := plot_conf.texheight
      let height := resolveHeight hf width max_height
      if max_height < height then
        (st, .error (.heightExceedsPage (max_height / width)))
      else
        (applyStyle st ncols width height,
         .ok ⟨width, height, save_suffix, 1000⟩)

end Qualfig

/-- Source: `qualfig.set_label_spaces(side, bottom, top, left, right)`: overwrite
the margin entries of the global style state for each provided argument.
The Boolean result records whether the conflicting-arguments warning
(`side` together with `left` or `right`) was printed; in that case the
`side` setting wins. -/
noncomputable def set_label_spaces (st : RcParams) (side bottom top left right : Option ℝ) :
    RcParams × Bool :=
  let warn := side.isSome && (left.isSome || right.isSome)
  let st :=
    match side with
    | some s =>
        { st with figure_subplot_left := s, figure_subplot_right := 1 - s }
    | none =>
        let st := match left with
          | some l => { st with figure_subplot_left := l }
          | none => st
        match right with
        | some r => { st with figure_subplot_right := 1 - r }
        | none => st
  let st := match bottom with
    | some b => { st with figure_subplot_bottom := b }
    | none => st
  let st := match top with
    | some t => { st with figure_subplot_top := 1 - t }
    | none => st
  (st, warn)

/-- One external side effect of the save pipeline (lines 253–288). -/
inductive FSOp where
  /-- Operation `plt.savefig(name, dpi=dpi)`: render the figure to `name`. -/
  | savefig (name : String)
  /-- Operation `gs -sDEVICE=bbox -dNOPAUSE -dBATCH name`: measure the bounding box. -/
  | gsBBox (name : String)
  /-- Operation `pdfcrop src dst --bbox ...`: crop `src` into `dst`. -/
  | pdfcrop (src dst : String)
  /-- Operation `rm name`. -/
  | rm (name : String)
  /-- Operation `pdftops -eps name`: convert `name` (a `.pdf`) to the matching `.eps`. -/
  | pdftopsEps (name : String)
  deriving DecidableEq, Repr

namespace Qualfig

/-- Source: `qualfig._crop_figure(fname, dpi)`: render to the temporary `dum.pdf`,
measure its bounding box, crop it into `fname`, and remove the temporary. -/
def crop_figure (fname : String) : List FSOp :=
  [.savefig "dum.pdf", .gsBBox "dum.pdf", .pdfcrop "dum.pdf" fname,
   .rm "dum.pdf"]

/-- Lines 273–275: strip a trailing `.pdf` extension if present
(`fname[-4:] == ".pdf"`). -/
def strip_pdf_ext (fname : String) : String :=
  if fname.takeRight 4 = ".pdf" then fname.dropRight 4 else fname

/-- Source: `qualfig.save(fname, extension)`: the trace of external operations.
The save name is the stripped filename plus the template save suffix; the
figure is cropped into it; for `extension == "eps"` it is then converted to
EPS and the cropped PDF removed.  Any other extension performs nothing
beyond the crop. -/
def save (q : Qualfig) (fname : String) (extension : String) : List FSOp :=
  let savename := strip_pdf_ext fname ++ q.save_suffix
  crop_figure savename ++
    (if extension = "eps" then [.pdftopsEps savename, .rm savename] else [])

end Qualfig

/-- The files produced so far after one pipeline operation: `savefig` and
`pdfcrop` create their target, `rm` deletes its argument, and
`pdftops -eps` creates the `.eps` sibling of its `.pdf` argument. -/
def artifactsStep (files : List String) : FSOp → List String
  | .savefig name => files ++ [name]
  | .gsBBox _ => files
  | .pdfcrop _ dst => files ++ [dst]
  | .rm name => files.erase name
  | .pdftopsEps name => files ++ [name.dropRight 4 ++ ".eps"]

/-- The files surviving a whole trace of pipeline operations. -/
def artifacts (ops : List FSOp) : List String :=
  ops.foldl artifactsStep []

/-- A concrete global style state used to instantiate the theorems. -/
def rc0 : RcParams where
  figure_subplot_top := 0
  figure_subplot_bottom := 0
  figure_subplot_left := 0
  figure_subplot_right := 0
  figure_figsize := (0, 0)
  font_size := 0
  axes_labelsize := 0
  axes_titlesize := 0
  xtick_major_width := 0
  xtick_minor_width := 0
  ytick_major_width := 0
  ytick_minor_width := 0
  lines_linewidth := 0
  grid_linewidth := 0
  xtick_minor_visible := false
  ytick_minor_visible := false
  xtick_bottom := false
  xtick_top := false
  ytick_left := false
  ytick_right := false
  xtick_direction := "out"
  ytick_direction := "out"
  errorbar_capsize := 0
  legend_fontsize := 0
  legend_framealpha := 1
  legend_edgecolor := "k"
  xtick_labelsize := 0
  ytick_labelsize := 0
  font_family := "serif"
  text_usetex := false
  text_latex_preamble := ""
  contour_negative_linestyle := "dashed"
  axes_prop_cycle := "bgrcmyk"

/-- A concrete configuration with the MNRAS layout constants quoted in the
specification (column width 240pt, maximum height 682pt), used for
instantiating the theorems. -/
def sampleConfig : Config := fun _ =>
  { savesuf := "_mnras", texcolumnwidth := 240, texlinewidth := 504,
    texheight := 682 }

/-- Inversion principle for a successful construction: a returned object
records the resolved preset's width, height and save suffix, the final
global state is the style overwrite, and the height check passed. -/
theorem Qualfig.init_ok_inv (config : Config) (st st' : RcParams)
    (ncols : Option ℤ) (hf : HF) (wf : Option ℝ) (key : Option String)
    (q : Qualfig)
    (h : Qualfig.init config st ncols hf wf key = (st', .ok q)) :
    ∃ plot_conf width,
      resolvePlotConf config key = .ok plot_conf ∧
      resolveWidth plot_conf ncols wf = .ok width ∧
      q = ⟨width, resolveHeight hf width plot_conf.texheight,
           plot_conf.savesuf ++ ".pdf", 1000⟩ ∧
      st' = applyStyle st ncols width
              (resolveHeight hf width plot_conf.texheight) ∧
      resolveHeight hf width plot_conf.texheight ≤ plot_conf.texheight := by
  unfold Qualfig.init at h
  split at h
  next e heq => simp at h
  next plot_conf heq =>
    simp only at h
    split at h
    next e hw => simp at h
    next width hw =>
      split at h
      next hlt => simp at h
      next hlt =>
        have h1 := congrArg Prod.fst h
        have h2 := congrArg Prod.snd h
        simp only at h1 h2
        refine ⟨plot_conf, width, heq, hw, ?_, h1.symm, not_lt.mp hlt⟩
        cases h2
        rfl

/-- C10: constructing with the template key absent (`key=None`) raises an
error regardless of the other arguments: `plot_conf` is only bound in the
branch for a present key, and its unconditional dereference to read the
save suffix fails, so no default preset exists and the global state is
untouched. -/
theorem Qualfig.init_absent_key_always_errors (config : Config)
    (st : RcParams) (ncols : Option ℤ) (hf : HF) (wf : Option ℝ) :
    Qualfig.init config st ncols hf wf none =
      (st, .error .nameErrorPlotConf) := by
  unfold Qualfig.init
  simp [resolvePlotConf]

/-- C3: whenever construction raises any error (unknown template key,
unbound preset, the `getinfloat` attribute error, missing width fraction,
invalid column span, or height exceeding the page limit), the returned
global style state equals the input state: all `rcParams` writes happen
after every raise site, so a failed call leaves prior global state
untouched. -/
theorem Qualfig.init_error_preserves_global_state (config : Config)
    (st st' : RcParams) (ncols : Option ℤ) (hf : HF) (wf : Option ℝ)
    (key : Option String) (e : PyError)
    (h : Qualfig.init config st ncols hf wf key = (st', .error e)) :
    st' = st := by
  unfold Qualfig.init at h
  split at h
  next e heq => exact (congrArg Prod.fst h).symm
  next plot_conf heq =>
    simp only at h
    split at h
    next e hw => exact (congrArg Prod.fst h).symm
    next width hw =>
      split at h
      next hlt => exact (congrArg Prod.fst h).symm
      next hlt =>
        have h2 := congrArg Prod.snd h
        simp only at h2
        exact absurd h2 (by simp)

/-- Witness for C3 at a concrete erroring input: an invalid column span of
3 fails and returns the global state unchanged. -/
theorem Qualfig.init_error_preserves_global_state_witness : rc0 = rc0 :=
  Qualfig.init_error_preserves_global_state sampleConfig rc0 rc0 (some 3)
    HF.gr none (some "mnras") (.invalidNcols 3) (by rfl)

/-- C1 (code bug): with a valid template key, constructing with
`columnSpan = 2` does not resolve the width to the preset's line width:
line 93 calls the nonexistent configparser method `getinfloat` (a typo for
`getfloat`), so construction raises `AttributeError` for every preset. -/
theorem Qualfig.init_ncols_two_getinfloat_bug (config : Config)
    (st : RcParams) (hf : HF) (wf : Option ℝ) (k : String)
    (hk : k ∈ permitted_keys) :
    Qualfig.init config st (some 2) hf wf (some k) =
      (st, .error (.attributeError "getinfloat")) := by
  unfold Qualfig.init
  simp [resolvePlotConf, hk, resolveWidth]

/-- Witness for C1's bug theorem at the concrete input
`key="mnras", ncols=2`. -/
theorem Qualfig.init_ncols_two_getinfloat_bug_witness :
    Qualfig.init sampleConfig rc0 (some 2) HF.gr none (some "mnras") =
      (rc0, .error (.attributeError "getinfloat")) :=
  Qualfig.init_ncols_two_getinfloat_bug sampleConfig rc0 HF.gr none "mnras"
    (by decide)

/-- The intended width resolution for `columnSpan = 1` (the half of C1 the
code does implement): the width is the preset's `texcolumnwidth`. -/
theorem resolveWidth_one_column (plot_conf : Preset) (wf : Option ℝ) :
    resolveWidth plot_conf (some 1) wf = .ok plot_conf.texcolumnwidth := rfl

/-- C2: for any input whose key and width resolve, if the computed height
exceeds the preset's maximum page height then construction fails with the
height error whose message payload is the maximum permissible height
fraction `texheight / width`; if the height is at most the maximum
(equality included) the validation passes and construction succeeds. -/
theorem Qualfig.init_height_validation (config : Config) (st : RcParams)
    (ncols : Option ℤ) (hf : HF) (wf : Option ℝ) (key : Option String)
    (plot_conf : Preset) (width : ℝ)
    (hconf : resolvePlotConf config key = .ok plot_conf)
    (hw : resolveWidth plot_conf ncols wf = .ok width) :
    (plot_conf.texheight < resolveHeight hf width plot_conf.texheight →
      Qualfig.init config st ncols hf wf key =
        (st, .error (.heightExceedsPage (plot_conf.texheight / width)))) ∧
    (resolveHeight hf width plot_conf.texheight ≤ plot_conf.texheight →
      Qualfig.init config st ncols hf wf key =
        (applyStyle st ncols width
           (resolveHeight hf width plot_conf.texheight),
         .ok ⟨width, resolveHeight hf width plot_conf.texheight,
              plot_conf.savesuf ++ ".pdf", 1000⟩)) := by
  unfold Qualfig.init
  rw [hconf]
  simp only [hw]
  constructor
  · intro hgt
    rw [if_pos hgt]
  · intro hle
    rw [if_neg (not_lt.mpr hle)]

/-- Witness for C2 at the spec's end-to-end example: `mnras`, one column
(240pt), height fraction 5 gives 1200pt > 682pt, so construction fails and
the message payload is the corrective maximum fraction 682/240 ≈ 2.84. -/
theorem Qualfig.init_height_validation_witness :
    Qualfig.init sampleConfig rc0 (some 1) (HF.frac 5) none (some "mnras") =
      (rc0, .error (.heightExceedsPage ((682 : ℝ) / 240))) :=
  (Qualfig.init_height_validation sampleConfig rc0 (some 1) (HF.frac 5) none
      (some "mnras") ⟨"_mnras", 240, 504, 682⟩ 240 (by rfl) (by rfl)).1
    (by norm_num [resolveHeight])

/-- C6 counterexample: at the concrete input `key=None` (template key
absent) construction fails, but the raised exception is the `NameError`
from the unbound `plot_conf` variable, whose Python class differs from the
`KeyError` class of the unknown-template error the claim requires. -/
theorem Qualfig.init_absent_key_not_keyError :
    Qualfig.init sampleConfig rc0 (some 1) HF.none none none =
      (rc0, .error .nameErrorPlotConf) ∧
    PyError.nameErrorPlotConf.pyclass = "NameError" ∧
    (PyError.keyError "x").pyclass = "KeyError" ∧
    PyError.nameErrorPlotConf.pyclass ≠ (PyError.keyError "x").pyclass := by
  refine ⟨by rfl, rfl, rfl, by decide⟩

/-- C6 (amended): a present key outside the enumerated set fails with the
unknown-template `KeyError`; an absent key also fails construction, but
with the `NameError` from dereferencing the unbound preset variable rather
than the unknown-template error; a present permitted key has its preset
looked up under the uppercase key and used. -/
theorem Qualfig.init_template_key_resolution (config : Config)
    (st : RcParams) (ncols : Option ℤ) (hf : HF) (wf : Option ℝ)
    (k : String) :
    (k ∉ permitted_keys →
      Qualfig.init config st ncols hf wf (some k) =
        (st, .error (.keyError k))) ∧
    (Qualfig.init config st ncols hf wf none =
      (st, .error .nameErrorPlotConf)) ∧
    (k ∈ permitted_keys →
      resolvePlotConf config (some k) = .ok (config k.toUpper)) := by
  refine ⟨fun hk => ?_, ?_, fun hk => ?_⟩
  · unfold Qualfig.init
    simp [resolvePlotConf, hk]
  · unfold Qualfig.init
    simp [resolvePlotConf]
  · simp [resolvePlotConf, hk]

/-- Witness for C6's amended theorem: the unsupported key `"nature"` fails
with the unknown-template `KeyError`. -/
theorem Qualfig.init_template_key_resolution_witness :
    Qualfig.init sampleConfig rc0 (some 1) HF.gr none (some "nature") =
      (rc0, .error (.keyError "nature")) :=
  (Qualfig.init_template_key_resolution sampleConfig rc0 (some 1) HF.gr none
      "nature").1 (by decide)

/-- C5: with the column span absent (`ncols=None`), a missing width
fraction fails construction with the missing-parameter error, while a
present width fraction resolves the width to the preset's line width times
the fraction; any column span other than 1, 2 or `None` fails construction
with the invalid-parameter error. -/
theorem Qualfig.init_width_fraction_resolution (config : Config)
    (st : RcParams) (hf : HF) (k : String) (hk : k ∈ permitted_keys) :
    (Qualfig.init config st none hf none (some k) =
      (st, .error .missingWidthFraction)) ∧
    (∀ (plot_conf : Preset) (w : ℝ),
      resolveWidth plot_conf none (some w) =
        .ok (plot_conf.texlinewidth * w)) ∧
    (∀ n : ℤ, n ≠ 1 → n ≠ 2 → ∀ wf : Option ℝ,
      Qualfig.init config st (some n) hf wf (some k) =
        (st, .error (.invalidNcols n))) := by
  refine ⟨?_, fun plot_conf w => rfl, fun n h1 h2 wf => ?_⟩
  · unfold Qualfig.init
    simp [resolvePlotConf, hk, resolveWidth]
  · unfold Qualfig.init
    have hw : resolveWidth (config k.toUpper) (some n) wf =
        .error (.invalidNcols n) := by
      unfold resolveWidth
      split
      next heq => exact absurd (by injection heq) h1
      next heq => exact absurd (by injection heq) h2
      next heq => exact absurd heq (by simp)
      next m heq => injection heq with heq; rw [heq]
    simp [resolvePlotConf, hk, hw]

/-- Witness for C5: `mnras` with `ncols=None` and no width fraction fails
with the missing-parameter error, and `ncols=3` is rejected as invalid. -/
theorem Qualfig.init_width_fraction_resolution_witness :
    (Qualfig.init sampleConfig rc0 none HF.gr none (some "mnras") =
      (rc0, .error .missingWidthFraction)) ∧
    (Qualfig.init sampleConfig rc0 (some 3) HF.gr none (some "mnras") =
      (rc0, .error (.invalidNcols 3))) :=
  ⟨(Qualfig.init_width_fraction_resolution sampleConfig rc0 HF.gr "mnras"
      (by decide)).1,
   (Qualfig.init_width_fraction_resolution sampleConfig rc0 HF.gr "mnras"
      (by decide)).2.2 3 (by decide) (by decide) none⟩

/-- The golden-ratio constant of line 114 is nonnegative. -/
theorem golden_ratio_nonneg : 0 ≤ golden_ratio := by
  unfold golden_ratio
  positivity

/-- The golden-ratio constant of line 114 is at most one. -/
theorem golden_ratio_le_one : golden_ratio ≤ 1 := by
  unfold golden_ratio
  rw [div_le_one (by positivity)]
  nlinarith [Real.sq_sqrt (by norm_num : (0:ℝ) ≤ 5), Real.sqrt_nonneg (5:ℝ)]

/-- Concrete evaluation: the spec's end-to-end example
`construct("mnras", ncols=1, hf="gr")` succeeds with width 240pt and
height `240 * goldenRatio`. -/
theorem init_sample_gr :
    Qualfig.init sampleConfig rc0 (some 1) HF.gr none (some "mnras") =
      (applyStyle rc0 (some 1) 240 (240 * golden_ratio),
       .ok ⟨240, 240 * golden_ratio, "_mnras" ++ ".pdf", 1000⟩) := by
  unfold Qualfig.init
  rw [show resolvePlotConf sampleConfig (some "mnras") =
      Except.ok ⟨"_mnras", 240, 504, 682⟩ from rfl]
  simp only [show resolveWidth (⟨"_mnras", 240, 504, 682⟩ : Preset) (some 1)
      none = Except.ok 240 from rfl]
  have hno : ¬ ((⟨"_mnras", 240, 504, 682⟩ : Preset).texheight <
      resolveHeight HF.gr 240 (⟨"_mnras", 240, 504, 682⟩ : Preset).texheight) := by
    show ¬ ((682 : ℝ) < 240 * golden_ratio)
    nlinarith [golden_ratio_nonneg, golden_ratio_le_one]
  rw [if_neg hno]
  simp only [resolveHeight]

/-- Concrete evaluation: `construct("mnras", ncols=1, hf=1/2)` succeeds
with width 240pt and height 120pt. -/
theorem init_sample_half :
    Qualfig.init sampleConfig rc0 (some 1) (HF.frac (1/2)) none
        (some "mnras") =
      (applyStyle rc0 (some 1) 240 (240 * (1/2)),
       .ok ⟨240, 240 * (1/2), "_mnras" ++ ".pdf", 1000⟩) := by
  unfold Qualfig.init
  rw [show resolvePlotConf sampleConfig (some "mnras") =
      Except.ok ⟨"_mnras", 240, 504, 682⟩ from rfl]
  simp only [show resolveWidth (⟨"_mnras", 240, 504, 682⟩ : Preset) (some 1)
      none = Except.ok 240 from rfl]
  have hno : ¬ ((⟨"_mnras", 240, 504, 682⟩ : Preset).texheight <
      resolveHeight (HF.frac (1/2)) 240
        (⟨"_mnras", 240, 504, 682⟩ : Preset).texheight) := by
    show ¬ ((682 : ℝ) < 240 * (1/2))
    norm_num
  rw [if_neg hno]
  simp only [resolveHeight]

/-- C4: every successful construction in golden-ratio height mode yields a
figure whose height is the width times `2/(1+√5)`; in particular the
height-to-width ratio is exactly `2/(1+√5)` whenever the width is
nonzero. -/
theorem Qualfig.init_golden_ratio_height (config : Config)
    (st st' : RcParams) (ncols : Option ℤ) (wf : Option ℝ)
    (key : Option String) (q : Qualfig)
    (h : Qualfig.init config st ncols HF.gr wf key = (st', .ok q)) :
    q.height = q.width * (2 / (1 + Real.sqrt 5)) ∧
    (q.width ≠ 0 → q.height / q.width = 2 / (1 + Real.sqrt 5)) := by
  obtain ⟨p, w, hc, hw, hq, hst, hle⟩ :=
    Qualfig.init_ok_inv config st st' ncols HF.gr wf key q h
  subst hq
  have hgr : golden_ratio = 2 / (1 + Real.sqrt 5) := by
    unfold golden_ratio; norm_num
  refine ⟨?_, fun hw0 => ?_⟩
  · show resolveHeight HF.gr w p.texheight = w * (2 / (1 + Real.sqrt 5))
    simp only [resolveHeight, hgr]
  · show resolveHeight HF.gr w p.texheight / w = 2 / (1 + Real.sqrt 5)
    simp only [resolveHeight, hgr]
    rw [mul_comm, mul_div_assoc, div_self hw0, mul_one]

/-- Witness for C4 at the concrete input `mnras`, one column, golden-ratio
height mode. -/
theorem Qualfig.init_golden_ratio_height_witness :
    (240 : ℝ) * golden_ratio = 240 * (2 / (1 + Real.sqrt 5)) ∧
    ((240 : ℝ) ≠ 0 →
      (240 : ℝ) * golden_ratio / 240 = 2 / (1 + Real.sqrt 5)) :=
  Qualfig.init_golden_ratio_height sampleConfig rc0 _ (some 1) none
    (some "mnras") _ init_sample_gr

/-- C7: every successful construction writes the figure size to the global
state as the resolved width and height divided by the conversion constant
72.27 (points per inch); in particular a resolved width of 240pt gives a
native-unit width of `240 / 72.27`.  The stored conversion constant is
exactly 72.27. -/
theorem Qualfig.init_unit_conversion (config : Config) (st st' : RcParams)
    (ncols : Option ℤ) (hf : HF) (wf : Option ℝ) (key : Option String)
    (q : Qualfig)
    (h : Qualfig.init config st ncols hf wf key = (st', .ok q)) :
    st'.figure_figsize = (q.width / 72.27, q.height / 72.27) ∧
    (q.width = 240 → (st'.figure_figsize).1 = 240 / 72.27) ∧
    inches_to_points = 72.27 := by
  obtain ⟨p, w, hc, hw, hq, hst, hle⟩ :=
    Qualfig.init_ok_inv config st st' ncols hf wf key q h
  subst hq
  subst hst
  have hfig : (applyStyle st ncols w
        (resolveHeight hf w p.texheight)).figure_figsize =
      (w / 72.27, resolveHeight hf w p.texheight / 72.27) := by
    simp only [applyStyle, inches_to_points]
  refine ⟨hfig, fun h240 => ?_, rfl⟩
  simp only at h240
  rw [hfig, h240]

/-- Witness for C7 at the concrete input `mnras`, one column, height
fraction 1/2: width 240pt converts to `240 / 72.27` native units. -/
theorem Qualfig.init_unit_conversion_witness :
    (applyStyle rc0 (some 1) 240 (240 * (1/2))).figure_figsize =
      ((240 : ℝ) / 72.27, (240 : ℝ) * (1/2) / 72.27) ∧
    ((240 : ℝ) = 240 →
      ((applyStyle rc0 (some 1) 240 (240 * (1/2))).figure_figsize).1 =
        240 / 72.27) ∧
    inches_to_points = 72.27 :=
  Qualfig.init_unit_conversion sampleConfig rc0 _ (some 1) (HF.frac (1/2))
    none (some "mnras") _ init_sample_half

/-- C8: `set_label_spaces(side=0.2)` sets the global left margin to 0.2
and the global right margin to `1 - 0.2 = 0.8`; providing `side` together
with `left` or `right` emits the conflict warning and the result equals
the one computed from `side` alone; each omitted margin argument leaves
the corresponding global margin entry unchanged. -/
theorem set_label_spaces_margins (st : RcParams)
    (side bottom top left right : Option ℝ) :
    ((set_label_spaces st (some 0.2) none none none none).1.figure_subplot_left
        = 0.2 ∧
     (set_label_spaces st (some 0.2) none none none none).1.figure_subplot_right
        = 0.8) ∧
    (side.isSome = true → (left.isSome = true ∨ right.isSome = true) →
      (set_label_spaces st side bottom top left right).2 = true ∧
      (set_label_spaces st side bottom top left right).1 =
        (set_label_spaces st side bottom top none none).1) ∧
    ((side = none → left = none →
      (set_label_spaces st side bottom top left right).1.figure_subplot_left =
        st.figure_subplot_left) ∧
     (side = none → right = none →
      (set_label_spaces st side bottom top left right).1.figure_subplot_right =
        st.figure_subplot_right) ∧
     (bottom = none →
      (set_label_spaces st side bottom top left right).1.figure_subplot_bottom =
        st.figure_subplot_bottom) ∧
     (top = none →
      (set_label_spaces st side bottom top left right).1.figure_subplot_top =
        st.figure_subplot_top)) := by
  refine ⟨⟨?_, ?_⟩, fun hs hlr => ⟨?_, ?_⟩, fun h1 h2 => ?_, fun h1 h2 => ?_,
    fun h1 => ?_, fun h1 => ?_⟩
  · simp [set_label_spaces]
  · simp [set_label_spaces]; norm_num
  · rcases side with _ | s
    · simp at hs
    · rcases hlr with h | h
      · rcases left with _ | l
        · simp at h
        · rfl
      · rcases right with _ | r
        · simp at h
        · rcases left with _ | l <;> rfl
  · rcases side with _ | s
    · simp at hs
    · rfl
  · subst h1; subst h2
    rcases right with _ | r <;> rcases bottom with _ | b <;>
      rcases top with _ | t <;> simp [set_label_spaces]
  · subst h1; subst h2
    rcases left with _ | l <;> rcases bottom with _ | b <;>
      rcases top with _ | t <;> simp [set_label_spaces]
  · subst h1
    rcases side with _ | s <;> rcases left with _ | l <;>
      rcases right with _ | r <;> rcases top with _ | t <;>
      simp [set_label_spaces]
  · subst h1
    rcases side with _ | s <;> rcases left with _ | l <;>
      rcases right with _ | r <;> rcases bottom with _ | b <;>
      simp [set_label_spaces]

/-- Witness for C8: with `side=0.2` and a conflicting `left=0.3`, the
warning is emitted and the `side` setting wins. -/
theorem set_label_spaces_margins_witness :
    (set_label_spaces rc0 (some 0.2) none none (some 0.3) none).2 = true ∧
    (set_label_spaces rc0 (some 0.2) none none (some 0.3) none).1 =
      (set_label_spaces rc0 (some 0.2) none none none none).1 :=
  (set_label_spaces_margins rc0 (some 0.2) none none (some 0.3) none).2.1
    rfl (Or.inl rfl)

/-- C9: `save` strips an existing `.pdf` suffix from the filename and
appends the template save suffix; with format `eps` the cropped PDF is
converted and removed so the `.eps` file is the only surviving artifact;
with format `pdf` the cropped PDF survives and no conversion operation
appears in the pipeline. -/
theorem Qualfig.save_pipeline (q : Qualfig) (fname : String) :
    ((fname.takeRight 4 = ".pdf" →
        Qualfig.strip_pdf_ext fname = fname.dropRight 4) ∧
     (fname.takeRight 4 ≠ ".pdf" → Qualfig.strip_pdf_ext fname = fname)) ∧
    artifacts (q.save fname "eps") =
      [(Qualfig.strip_pdf_ext fname ++ q.save_suffix).dropRight 4 ++ ".eps"] ∧
    artifacts (q.save fname "pdf") =
      [Qualfig.strip_pdf_ext fname ++ q.save_suffix] ∧
    ∀ n, FSOp.pdftopsEps n ∉ q.save fname "pdf" := by
  refine ⟨⟨fun h => ?_, fun h => ?_⟩, ?_, ?_, fun n => ?_⟩
  · simp [Qualfig.strip_pdf_ext, h]
  · simp [Qualfig.strip_pdf_ext, h]
  · simp [Qualfig.save, Qualfig.crop_figure, artifacts, artifactsStep,
      List.erase_cons_head]
  · simp [Qualfig.save, Qualfig.crop_figure, artifacts, artifactsStep,
      List.erase_cons_head]
  · simp [Qualfig.save, Qualfig.crop_figure]

/-- Witness for C9: `save("figure.pdf", ...)` strips the `.pdf` extension
from the given filename. -/
theorem Qualfig.save_pipeline_witness :
    Qualfig.strip_pdf_ext "figure.pdf" = "figure.pdf".dropRight 4 :=
  (Qualfig.save_pipeline ⟨240, 120, "_mnras.pdf", 1000⟩ "figure.pdf").1.1
    (by decide)
